import Mathlib

/-!
Verification development for the ESP32 remote-IO Modbus TCP slave firmware.

The definitions below are a shallow embedding of the C sources:
* `main/modbus_params.h` — the coil register banks and the
  `MB_IS_COIL_ON` / `MB_TURN_COIL_ON` / `MB_TURN_COIL_OFF` macros;
* `main/esp32_rio_modbus_tcp_slave.c` — the output-enable toggle handler,
  the discrete-input observer, the output-update loop and the coil-write
  branch of the Modbus event loop;
* `components/remote_io/remote_io.c` — the GPIO layer, the input-event
  task and the button-debounce timer.

Sixteen-bit C registers are modelled as `Nat` together with an explicit
`% 2 ^ 16` wherever the C code stores into a `uint16_t`.  Physical output
lines are modelled as bitfields indexed by channel number (the concrete
GPIO pin numbers of the two banks are pairwise distinct, so channel
indexing is faithful).
-/

namespace Esp32Rio

/-- Number of input channels and of output channels per bank
(`ESP32_RIO_NUM_IO_CHANNELS` in `remote_io.h`). -/
def ESP32_RIO_NUM_IO_CHANNELS : Nat := 10

/-- Coil address of the output-enable mirror bit (`OE_COIL_ADDR`). -/
def OE_COIL_ADDR : Nat := 31

/-- Set bit `i` of word `w`; models `w |= (1U << i)`. -/
def setBit (w i : Nat) : Nat := w ||| (1 <<< i)

/-- Clear bit `i` of word `w`; models `w &= ~(1ULL << i)`. -/
def clearBit (w i : Nat) : Nat := Nat.ldiff w (1 <<< i)

/-- The two 16-bit coil banks (`coil_reg_params_t` in `modbus_params.h`). -/
@[ext]
structure RegParams where
  coils_bank0 : Nat
  coils_bank1 : Nat
deriving DecidableEq, Repr

/-- `MB_IS_COIL_ON(address)`: the macro converts the address to `uint16_t`,
then tests bit `addr` of bank 0 when `addr < 16`, bit `addr - 16` of bank 1
when `16 <= addr < 32`, and yields `false` otherwise. -/
def MB_IS_COIL_ON (r : RegParams) (address : Nat) : Bool :=
  let addr := address % 2 ^ 16
  if addr < 16 then
    r.coils_bank0.testBit addr
  else if 16 ≤ addr ∧ addr < 32 then
    r.coils_bank1.testBit (addr - 16)
  else
    false

/-- `MB_TURN_COIL_ON(address)`: ors `1U << addr` into the selected bank;
the store back into the `uint16_t` field truncates to 16 bits. -/
def MB_TURN_COIL_ON (r : RegParams) (address : Nat) : RegParams :=
  let addr := address % 2 ^ 16
  if addr < 16 then
    { r with coils_bank0 := setBit r.coils_bank0 addr % 2 ^ 16 }
  else if 16 ≤ addr ∧ addr < 32 then
    { r with coils_bank1 := setBit r.coils_bank1 (addr - 16) % 2 ^ 16 }
  else
    r

/-- `MB_TURN_COIL_OFF(address)`: ands the selected bank with
`~(1ULL << addr)`; the store truncates to 16 bits. -/
def MB_TURN_COIL_OFF (r : RegParams) (address : Nat) : RegParams :=
  let addr := address % 2 ^ 16
  if addr < 16 then
    { r with coils_bank0 := clearBit r.coils_bank0 addr % 2 ^ 16 }
  else if 16 ≤ addr ∧ addr < 32 then
    { r with coils_bank1 := clearBit r.coils_bank1 (addr - 16) % 2 ^ 16 }
  else
    r

/-- State of the physical output lines driven through `gpio_set_level` in
`remote_io.c`: bit `k` of `dq0` (resp. `dq1`) is the level of output line
`DQ0[k]` (resp. `DQ1[k]`), and `status_led` is the level of the status LED
pin.  All pin numbers involved are pairwise distinct. -/
@[ext]
structure PhysState where
  dq0 : Nat
  dq1 : Nat
  status_led : Bool
deriving DecidableEq, Repr

/-- `esp32_rio_turn_output_on(bank_number, output_number)`. -/
def esp32_rio_turn_output_on (bank_number output_number : Nat) (p : PhysState) :
    PhysState :=
  if bank_number = 0 then
    { p with dq0 := setBit p.dq0 output_number }
  else if bank_number = 1 then
    { p with dq1 := setBit p.dq1 output_number }
  else
    p

/-- `esp32_rio_turn_output_off(bank_number, output_number)`. -/
def esp32_rio_turn_output_off (bank_number output_number : Nat) (p : PhysState) :
    PhysState :=
  if bank_number = 0 then
    { p with dq0 := clearBit p.dq0 output_number }
  else if bank_number = 1 then
    { p with dq1 := clearBit p.dq1 output_number }
  else
    p

/-- `esp32_rio_disable_outputs()`: drives every line of both banks low. -/
def esp32_rio_disable_outputs (p : PhysState) : PhysState :=
  (List.range ESP32_RIO_NUM_IO_CHANNELS).foldl
    (fun q i => { q with dq0 := clearBit q.dq0 i, dq1 := clearBit q.dq1 i }) p

/-- `esp32_rio_turn_status_led_on()`. -/
def esp32_rio_turn_status_led_on (p : PhysState) : PhysState :=
  { p with status_led := true }

/-- `esp32_rio_turn_status_led_off()`. -/
def esp32_rio_turn_status_led_off (p : PhysState) : PhysState :=
  { p with status_led := false }

/-- One iteration of the loop body of `update_digital_outputs` in
`esp32_rio_modbus_tcp_slave.c`: drive bank-0 line `i` from coil `i` and
bank-1 line `i` from coil `i + 16`. -/
def updStep (r : RegParams) (p : PhysState) (i : Nat) : PhysState :=
  let p1 :=
    if MB_IS_COIL_ON r i then esp32_rio_turn_output_on 0 i p
    else esp32_rio_turn_output_off 0 i p
  if MB_IS_COIL_ON r (i + 16) then esp32_rio_turn_output_on 1 i p1
  else esp32_rio_turn_output_off 1 i p1

/-- `update_digital_outputs()`: the loop over all channels. -/
def update_digital_outputs (r : RegParams) (p : PhysState) : PhysState :=
  (List.range ESP32_RIO_NUM_IO_CHANNELS).foldl (updStep r) p

/-- Combined state of the firmware as seen by the claims: the coil banks
(`coil_reg_params`), the discrete-input register
(`discrete_reg_params.discrete_inputs`), the output-enable flag
(`outputs_enabled`), the physical output lines, and the current levels of
the physical input lines (bit `i` of `input_levels` is the level of pin
`DI[i]`, read by `esp32_rio_is_input_on`). -/
@[ext]
structure SlaveState where
  coil_reg_params : RegParams
  discrete_inputs : Nat
  outputs_enabled : Bool
  phys : PhysState
  input_levels : Nat
deriving DecidableEq, Repr

/-- `esp32_rio_is_input_on(input_number)`: samples the level of input pin
`DI[input_number]`. -/
def esp32_rio_is_input_on (s : SlaveState) (input_number : Nat) : Bool :=
  s.input_levels.testBit input_number

/-- `on_di_level_change(input_number)`: samples the input level and writes
bit `input_number` of the discrete-input register accordingly, under the
register lock. -/
def on_di_level_change (s : SlaveState) (input_number : Nat) : SlaveState :=
  if esp32_rio_is_input_on s input_number then
    { s with discrete_inputs := setBit s.discrete_inputs input_number % 2 ^ 16 }
  else
    { s with discrete_inputs := clearBit s.discrete_inputs input_number % 2 ^ 16 }

/-- The `outputs_enabled == true` branch of `on_oe_button_toggle`: clear the
enable flag, clear the mirror coil, force all outputs off, turn the status
LED off.  The coil-write handler performs the same forcing sequence when the
master clears the mirror coil. -/
def disable_transition (s : SlaveState) : SlaveState :=
  let s1 := { s with outputs_enabled := false }
  let s2 := { s1 with coil_reg_params := MB_TURN_COIL_OFF s1.coil_reg_params OE_COIL_ADDR }
  let s3 := { s2 with phys := esp32_rio_disable_outputs s2.phys }
  { s3 with phys := esp32_rio_turn_status_led_off s3.phys }

/-- `on_oe_button_toggle()`: the debounced local toggle callback. -/
def on_oe_button_toggle (s : SlaveState) : SlaveState :=
  if s.outputs_enabled then
    disable_transition s
  else
    let s1 := { s with phys := update_digital_outputs s.coil_reg_params s.phys }
    let s2 := { s1 with outputs_enabled := true }
    let s3 := { s2 with coil_reg_params := MB_TURN_COIL_ON s2.coil_reg_params OE_COIL_ADDR }
    { s3 with phys := esp32_rio_turn_status_led_on s3.phys }

/-- The `MB_EVENT_COILS_WR` branch of `mb_slave_run`: read the mirror coil
and reconcile the output-enable flag and the physical outputs. -/
def handle_coil_write_event (s : SlaveState) : SlaveState :=
  let oe_coil_on := MB_IS_COIL_ON s.coil_reg_params OE_COIL_ADDR
  if s.outputs_enabled then
    if !oe_coil_on then
      let s1 := { s with phys := esp32_rio_disable_outputs s.phys }
      let s2 := { s1 with outputs_enabled := false }
      { s2 with phys := esp32_rio_turn_status_led_off s2.phys }
    else
      { s with phys := update_digital_outputs s.coil_reg_params s.phys }
  else if oe_coil_on then
    let s1 := { s with phys := update_digital_outputs s.coil_reg_params s.phys }
    let s2 := { s1 with outputs_enabled := true }
    { s2 with phys := esp32_rio_turn_status_led_on s2.phys }
  else
    s

/-- Events driving the interlock state machine: a debounced local button
toggle, or a remote coil write.  A coil write first deposits new 16-bit
values into the two coil banks (the Modbus stack writes them directly into
`coil_reg_params` through the register-area descriptor) and is then
processed by the `MB_EVENT_COILS_WR` branch of `mb_slave_run`. -/
inductive MbEvent where
  | localToggle : MbEvent
  | coilWrite : Nat → Nat → MbEvent
deriving DecidableEq, Repr

/-- Apply one event to the slave state. -/
def applyEvent (s : SlaveState) (e : MbEvent) : SlaveState :=
  match e with
  | .localToggle => on_oe_button_toggle s
  | .coilWrite b0 b1 =>
      handle_coil_write_event
        { s with coil_reg_params := ⟨b0 % 2 ^ 16, b1 % 2 ^ 16⟩ }

/-- Apply a sequence of events. -/
def runEvents (s : SlaveState) (es : List MbEvent) : SlaveState :=
  es.foldl applyEvent s

/-- One iteration of the probing loop of `setup_reg_data()`: write bit `i`
of the discrete-input register from the current level of input pin `i`. -/
def setupStep (t : SlaveState) (i : Nat) : SlaveState :=
  if esp32_rio_is_input_on t i then
    { t with discrete_inputs := setBit t.discrete_inputs i % 2 ^ 16 }
  else
    { t with discrete_inputs := clearBit t.discrete_inputs i % 2 ^ 16 }

/-- `setup_reg_data()`: zero both coil banks, then probe each discrete
input from the current level of the corresponding input pin. -/
def setup_reg_data (s : SlaveState) : SlaveState :=
  (List.range ESP32_RIO_NUM_IO_CHANNELS).foldl setupStep
    { s with coil_reg_params := ⟨0, 0⟩ }

/-- State right after startup: `esp32_rio_configure_gpio` drives every
output line and the status LED low, `outputs_enabled` starts `false`, and
`setup_reg_data` initialises the register banks.  The current input-pin
levels are the environment's choice. -/
def initState (inputs : Nat) : SlaveState :=
  setup_reg_data
    { coil_reg_params := ⟨0, 0⟩
      discrete_inputs := 0
      outputs_enabled := false
      phys := { dq0 := 0, dq1 := 0, status_led := false }
      input_levels := inputs }

/-- Inductive invariant of the interlock state machine: the coil banks fit
in sixteen bits, the mirror coil (bit 15 of bank 1) agrees with
`outputs_enabled`, lines above the ten channels are never driven, and while
outputs are disabled every physical output line is low. -/
def Inv (s : SlaveState) : Prop :=
  s.coil_reg_params.coils_bank0 < 2 ^ 16 ∧
  s.coil_reg_params.coils_bank1 < 2 ^ 16 ∧
  s.coil_reg_params.coils_bank1.testBit 15 = s.outputs_enabled ∧
  (∀ k, 10 ≤ k → s.phys.dq0.testBit k = false ∧ s.phys.dq1.testBit k = false) ∧
  (s.outputs_enabled = false →
    ∀ k, s.phys.dq0.testBit k = false ∧ s.phys.dq1.testBit k = false)

/-- GPIO numbers of the ten digital input pins (the `DI` table in
`remote_io.c`). -/
def DI : List Nat := [4, 5, 6, 7, 15, 16, 17, 9, 8, 18]

/-- The channel-lookup loop of `io_task`: scan the `DI` table for the first
channel whose pin number matches the dequeued GPIO number; the loop breaks
on the first match. -/
def find_di_channel (io_num : Nat) : Option Nat :=
  (List.range ESP32_RIO_NUM_IO_CHANNELS).find? (fun i => DI.getD i 0 == io_num)

/-- One drain step of `io_task`: on a dequeued GPIO number, scan the `DI`
table; on a match invoke the registered level-change observer
(`on_di_level_change`) with the channel index; with no match, do nothing.
The second component records which channel the observer was invoked for,
if any. -/
def io_task_step (s : SlaveState) (io_num : Nat) : SlaveState × Option Nat :=
  match find_di_channel io_num with
  | some i => (on_di_level_change s i, some i)
  | none => (s, none)

/-- Pending-press flag of the debounce logic (`s_button_pressed`). -/
structure DebounceState where
  button_pressed : Bool
deriving DecidableEq, Repr

/-- Events seen by the debounce logic: a qualifying falling edge on the
button pin (handled by `io_isr_handler`, which sets the pending flag and
restarts the single-shot timer), or an expiry of the debounce timer
(handled by `debounce_timer_callback`). -/
inductive ButtonEvent where
  | edge : ButtonEvent
  | timerExpiry : ButtonEvent
deriving DecidableEq, Repr

/-- One debounce step.  The second component counts the invocations of the
registered toggle callback: an edge never invokes it, a timer expiry
invokes it exactly once when the pending flag is still set and then clears
the flag. -/
def debounceStep : DebounceState × Nat → ButtonEvent → DebounceState × Nat
  | (_, n), .edge => (⟨true⟩, n)
  | (s, n), .timerExpiry =>
      if s.button_pressed then (⟨false⟩, n + 1) else (s, n)

/-- Run the debounce logic over a sequence of events, starting with a zero
callback count. -/
def debounceRun (s : DebounceState) (evs : List ButtonEvent) :
    DebounceState × Nat :=
  evs.foldl debounceStep (s, 0)

theorem testBit_setBit (w i j : Nat) :
    (setBit w i).testBit j = if j = i then true else w.testBit j := by
  simp only [setBit, Nat.one_shiftLeft, Nat.testBit_lor, Nat.testBit_two_pow]
  by_cases h : j = i
  · simp [h]
  · simp [h, Ne.symm h]

theorem testBit_clearBit (w i j : Nat) :
    (clearBit w i).testBit j = if j = i then false else w.testBit j := by
  simp only [clearBit, Nat.one_shiftLeft, Nat.testBit_ldiff, Nat.testBit_two_pow]
  by_cases h : j = i
  · simp [h]
  · simp [h, Ne.symm h]

theorem testBit_mod_sixteen (x j : Nat) :
    (x % 65536).testBit j = if j < 16 then x.testBit j else false := by
  rw [show (65536 : Nat) = 2 ^ 16 by norm_num, Nat.testBit_mod_two_pow]
  by_cases h : j < 16 <;> simp [h]

theorem MB_IS_COIL_ON_low (r : RegParams) (a : Nat) (ha : a < 16) :
    MB_IS_COIL_ON r a = r.coils_bank0.testBit a := by
  have hm : a % 65536 = a := Nat.mod_eq_of_lt (by omega)
  simp [MB_IS_COIL_ON, hm, ha]

theorem MB_IS_COIL_ON_high (r : RegParams) (a : Nat) (h1 : 16 ≤ a) (h2 : a < 32) :
    MB_IS_COIL_ON r a = r.coils_bank1.testBit (a - 16) := by
  have hm : a % 65536 = a := Nat.mod_eq_of_lt (by omega)
  have hlt : ¬ a < 16 := by omega
  simp [MB_IS_COIL_ON, hm, hlt, h1, h2]

theorem MB_IS_COIL_ON_oe (r : RegParams) :
    MB_IS_COIL_ON r OE_COIL_ADDR = r.coils_bank1.testBit 15 := by
  simpa [OE_COIL_ADDR] using MB_IS_COIL_ON_high r 31 (by omega) (by omega)

theorem updStep_dq0 (r : RegParams) (p : PhysState) (i j : Nat) :
    (updStep r p i).dq0.testBit j =
      if j = i then MB_IS_COIL_ON r i else p.dq0.testBit j := by
  simp only [updStep, esp32_rio_turn_output_on, esp32_rio_turn_output_off]
  cases h0 : MB_IS_COIL_ON r i <;> cases h1 : MB_IS_COIL_ON r (i + 16) <;>
    simp [testBit_setBit, testBit_clearBit, h0, h1]

theorem updStep_dq1 (r : RegParams) (p : PhysState) (i j : Nat) :
    (updStep r p i).dq1.testBit j =
      if j = i then MB_IS_COIL_ON r (i + 16) else p.dq1.testBit j := by
  simp only [updStep, esp32_rio_turn_output_on, esp32_rio_turn_output_off]
  cases h0 : MB_IS_COIL_ON r i <;> cases h1 : MB_IS_COIL_ON r (i + 16) <;>
    simp [testBit_setBit, testBit_clearBit, h0, h1]

theorem updStep_led (r : RegParams) (p : PhysState) (i : Nat) :
    (updStep r p i).status_led = p.status_led := by
  simp only [updStep, esp32_rio_turn_output_on, esp32_rio_turn_output_off]
  cases h0 : MB_IS_COIL_ON r i <;> cases h1 : MB_IS_COIL_ON r (i + 16) <;> simp

theorem updFold_spec (r : RegParams) (p : PhysState) (n : Nat) :
    (∀ j, ((List.range n).foldl (updStep r) p).dq0.testBit j =
        if j < n then MB_IS_COIL_ON r j else p.dq0.testBit j) ∧
    (∀ j, ((List.range n).foldl (updStep r) p).dq1.testBit j =
        if j < n then MB_IS_COIL_ON r (j + 16) else p.dq1.testBit j) ∧
    ((List.range n).foldl (updStep r) p).status_led = p.status_led := by
  induction n with
  | zero => simp
  | succ n ih =>
    obtain ⟨ih0, ih1, ihled⟩ := ih
    rw [List.range_succ, List.foldl_append]
    refine ⟨?_, ?_, ?_⟩
    · intro j
      rw [List.foldl_cons, List.foldl_nil, updStep_dq0, ih0]
      by_cases hj : j = n
      · simp [hj]
      · by_cases hj' : j < n
        · have h1 : j < n + 1 := by omega
          simp [hj, hj', h1]
        · have h1 : ¬ j < n + 1 := by omega
          simp [hj, hj', h1]
    · intro j
      rw [List.foldl_cons, List.foldl_nil, updStep_dq1, ih1]
      by_cases hj : j = n
      · simp [hj]
      · by_cases hj' : j < n
        · have h1 : j < n + 1 := by omega
          simp [hj, hj', h1]
        · have h1 : ¬ j < n + 1 := by omega
          simp [hj, hj', h1]
    · rw [List.foldl_cons, List.foldl_nil, updStep_led, ihled]

theorem update_digital_outputs_dq0 (r : RegParams) (p : PhysState) (j : Nat) :
    (update_digital_outputs r p).dq0.testBit j =
      if j < 10 then MB_IS_COIL_ON r j else p.dq0.testBit j :=
  (updFold_spec r p 10).1 j

theorem update_digital_outputs_dq1 (r : RegParams) (p : PhysState) (j : Nat) :
    (update_digital_outputs r p).dq1.testBit j =
      if j < 10 then MB_IS_COIL_ON r (j + 16) else p.dq1.testBit j :=
  (updFold_spec r p 10).2.1 j

theorem update_digital_outputs_led (r : RegParams) (p : PhysState) :
    (update_digital_outputs r p).status_led = p.status_led :=
  (updFold_spec r p 10).2.2

theorem disableFold_spec (p : PhysState) (n : Nat) :
    (∀ j, ((List.range n).foldl
        (fun q i => { q with dq0 := clearBit q.dq0 i, dq1 := clearBit q.dq1 i }) p).dq0.testBit j =
        if j < n then false else p.dq0.testBit j) ∧
    (∀ j, ((List.range n).foldl
        (fun q i => { q with dq0 := clearBit q.dq0 i, dq1 := clearBit q.dq1 i }) p).dq1.testBit j =
        if j < n then false else p.dq1.testBit j) ∧
    ((List.range n).foldl
        (fun q i => { q with dq0 := clearBit q.dq0 i, dq1 := clearBit q.dq1 i }) p).status_led =
      p.status_led := by
  induction n with
  | zero => simp
  | succ n ih =>
    obtain ⟨ih0, ih1, ihled⟩ := ih
    rw [List.range_succ, List.foldl_append]
    refine ⟨?_, ?_, ?_⟩
    · intro j
      rw [List.foldl_cons, List.foldl_nil]
      simp only [testBit_clearBit]
      rw [ih0]
      by_cases hj : j = n
      · simp [hj]
      · by_cases hj' : j < n
        · have h1 : j < n + 1 := by omega
          simp [hj, hj', h1]
        · have h1 : ¬ j < n + 1 := by omega
          simp [hj, hj', h1]
    · intro j
      rw [List.foldl_cons, List.foldl_nil]
      simp only [testBit_clearBit]
      rw [ih1]
      by_cases hj : j = n
      · simp [hj]
      · by_cases hj' : j < n
        · have h1 : j < n + 1 := by omega
          simp [hj, hj', h1]
        · have h1 : ¬ j < n + 1 := by omega
          simp [hj, hj', h1]
    · rw [List.foldl_cons, List.foldl_nil]
      exact ihled

theorem disable_outputs_dq0 (p : PhysState) (j : Nat) :
    (esp32_rio_disable_outputs p).dq0.testBit j =
      if j < 10 then false else p.dq0.testBit j :=
  (disableFold_spec p 10).1 j

theorem disable_outputs_dq1 (p : PhysState) (j : Nat) :
    (esp32_rio_disable_outputs p).dq1.testBit j =
      if j < 10 then false else p.dq1.testBit j :=
  (disableFold_spec p 10).2.1 j

theorem disable_outputs_led (p : PhysState) :
    (esp32_rio_disable_outputs p).status_led = p.status_led :=
  (disableFold_spec p 10).2.2

theorem MB_TURN_COIL_ON_oe (r : RegParams) :
    MB_TURN_COIL_ON r OE_COIL_ADDR =
      { r with coils_bank1 := setBit r.coils_bank1 15 % 2 ^ 16 } := by
  norm_num [MB_TURN_COIL_ON, OE_COIL_ADDR]

theorem MB_TURN_COIL_OFF_oe (r : RegParams) :
    MB_TURN_COIL_OFF r OE_COIL_ADDR =
      { r with coils_bank1 := clearBit r.coils_bank1 15 % 2 ^ 16 } := by
  norm_num [MB_TURN_COIL_OFF, OE_COIL_ADDR]

theorem disable_transition_fields (s : SlaveState) :
    (disable_transition s).outputs_enabled = false ∧
    (disable_transition s).coil_reg_params =
      MB_TURN_COIL_OFF s.coil_reg_params OE_COIL_ADDR ∧
    (disable_transition s).discrete_inputs = s.discrete_inputs ∧
    (disable_transition s).input_levels = s.input_levels ∧
    (disable_transition s).phys =
      esp32_rio_turn_status_led_off (esp32_rio_disable_outputs s.phys) :=
  ⟨rfl, rfl, rfl, rfl, rfl⟩

theorem on_oe_button_toggle_of_enabled (s : SlaveState)
    (h : s.outputs_enabled = true) :
    on_oe_button_toggle s = disable_transition s := by
  simp [on_oe_button_toggle, h]

theorem on_oe_button_toggle_of_disabled (s : SlaveState)
    (h : s.outputs_enabled = false) :
    on_oe_button_toggle s =
      { s with
        outputs_enabled := true
        coil_reg_params := MB_TURN_COIL_ON s.coil_reg_params OE_COIL_ADDR
        phys := esp32_rio_turn_status_led_on
          (update_digital_outputs s.coil_reg_params s.phys) } := by
  simp [on_oe_button_toggle, h]

theorem handle_coil_write_disable (s : SlaveState)
    (he : s.outputs_enabled = true)
    (hc : MB_IS_COIL_ON s.coil_reg_params OE_COIL_ADDR = false) :
    handle_coil_write_event s =
      { s with
        outputs_enabled := false
        phys := esp32_rio_turn_status_led_off (esp32_rio_disable_outputs s.phys) } := by
  simp [handle_coil_write_event, he, hc]

theorem handle_coil_write_remirror (s : SlaveState)
    (he : s.outputs_enabled = true)
    (hc : MB_IS_COIL_ON s.coil_reg_params OE_COIL_ADDR = true) :
    handle_coil_write_event s =
      { s with phys := update_digital_outputs s.coil_reg_params s.phys } := by
  simp [handle_coil_write_event, he, hc]

theorem handle_coil_write_enable (s : SlaveState)
    (he : s.outputs_enabled = false)
    (hc : MB_IS_COIL_ON s.coil_reg_params OE_COIL_ADDR = true) :
    handle_coil_write_event s =
      { s with
        outputs_enabled := true
        phys := esp32_rio_turn_status_led_on
          (update_digital_outputs s.coil_reg_params s.phys) } := by
  simp [handle_coil_write_event, he, hc]

theorem handle_coil_write_noop (s : SlaveState)
    (he : s.outputs_enabled = false)
    (hc : MB_IS_COIL_ON s.coil_reg_params OE_COIL_ADDR = false) :
    handle_coil_write_event s = s := by
  simp [handle_coil_write_event, he, hc]

theorem mod_sixteen_lt (x : Nat) : x % 2 ^ 16 < 2 ^ 16 :=
  Nat.mod_lt _ (by norm_num)

theorem setupFold_fields (l : List Nat) (t : SlaveState) :
    (l.foldl setupStep t).coil_reg_params = t.coil_reg_params ∧
    (l.foldl setupStep t).outputs_enabled = t.outputs_enabled ∧
    (l.foldl setupStep t).phys = t.phys := by
  induction l generalizing t with
  | nil => exact ⟨rfl, rfl, rfl⟩
  | cons a l ih =>
    simp only [List.foldl_cons, setupStep]
    by_cases h : esp32_rio_is_input_on t a <;> simp only [h, if_true, if_false] <;>
      exact ih _

theorem Inv_initState (inputs : Nat) : Inv (initState inputs) := by
  obtain ⟨hc, he, hp⟩ := setupFold_fields (List.range ESP32_RIO_NUM_IO_CHANNELS)
    { coil_reg_params := (⟨0, 0⟩ : RegParams)
      discrete_inputs := (0 : Nat)
      outputs_enabled := false
      phys := { dq0 := 0, dq1 := 0, status_led := false }
      input_levels := inputs }
  refine ⟨?_, ?_, ?_, ?_, ?_⟩ <;>
    simp [initState, setup_reg_data, hc, he, hp, Nat.zero_testBit]

theorem forced_off_dq (p : PhysState)
    (hh : ∀ k, 10 ≤ k → p.dq0.testBit k = false ∧ p.dq1.testBit k = false) :
    ∀ k, (esp32_rio_turn_status_led_off (esp32_rio_disable_outputs p)).dq0.testBit k = false ∧
      (esp32_rio_turn_status_led_off (esp32_rio_disable_outputs p)).dq1.testBit k = false := by
  intro k
  have h0 := disable_outputs_dq0 p k
  have h1 := disable_outputs_dq1 p k
  by_cases hk : k < 10
  · constructor <;> simp [esp32_rio_turn_status_led_off, h0, h1, hk]
  · obtain ⟨hh0, hh1⟩ := hh k (by omega)
    constructor <;> simp [esp32_rio_turn_status_led_off, h0, h1, hk, hh0, hh1]

theorem update_phys_high (r : RegParams) (p : PhysState)
    (hh : ∀ k, 10 ≤ k → p.dq0.testBit k = false ∧ p.dq1.testBit k = false) :
    ∀ k, 10 ≤ k →
      (update_digital_outputs r p).dq0.testBit k = false ∧
      (update_digital_outputs r p).dq1.testBit k = false := by
  intro k hk
  have hk' : ¬ k < 10 := by omega
  rw [update_digital_outputs_dq0, update_digital_outputs_dq1]
  simpa [hk'] using hh k hk

theorem Inv_disable_transition (s : SlaveState) (h : Inv s) :
    Inv (disable_transition s) := by
  obtain ⟨hb0, hb1, hmir, hhigh, hoff⟩ := h
  obtain ⟨hde, hdc, _, _, hdp⟩ := disable_transition_fields s
  refine ⟨?_, ?_, ?_, ?_, ?_⟩
  · rw [hdc, MB_TURN_COIL_OFF_oe]
    exact hb0
  · rw [hdc, MB_TURN_COIL_OFF_oe]
    exact mod_sixteen_lt _
  · rw [hdc, MB_TURN_COIL_OFF_oe, hde]
    simp [testBit_mod_sixteen, testBit_clearBit]
  · intro k _
    rw [hdp]
    exact forced_off_dq s.phys hhigh k
  · intro _ k
    rw [hdp]
    exact forced_off_dq s.phys hhigh k

theorem Inv_on_oe_button_toggle (s : SlaveState) (h : Inv s) :
    Inv (on_oe_button_toggle s) := by
  cases he : s.outputs_enabled with
  | true =>
    rw [on_oe_button_toggle_of_enabled s he]
    exact Inv_disable_transition s h
  | false =>
    obtain ⟨hb0, hb1, hmir, hhigh, hoff⟩ := h
    rw [on_oe_button_toggle_of_disabled s he]
    refine ⟨?_, ?_, ?_, ?_, ?_⟩
    · rw [MB_TURN_COIL_ON_oe]
      exact hb0
    · rw [MB_TURN_COIL_ON_oe]
      exact mod_sixteen_lt _
    · rw [MB_TURN_COIL_ON_oe]
      simp [testBit_mod_sixteen, testBit_setBit]
    · intro k hk
      have := update_phys_high s.coil_reg_params s.phys hhigh k hk
      simpa [esp32_rio_turn_status_led_on] using this
    · intro hcontra _
      simp at hcontra

theorem Inv_handle_coil_write (s : SlaveState)
    (hb0 : s.coil_reg_params.coils_bank0 < 2 ^ 16)
    (hb1 : s.coil_reg_params.coils_bank1 < 2 ^ 16)
    (hhigh : ∀ k, 10 ≤ k →
      s.phys.dq0.testBit k = false ∧ s.phys.dq1.testBit k = false)
    (hoff : s.outputs_enabled = false →
      ∀ k, s.phys.dq0.testBit k = false ∧ s.phys.dq1.testBit k = false) :
    Inv (handle_coil_write_event s) := by
  have hmir : s.coil_reg_params.coils_bank1.testBit 15 =
      MB_IS_COIL_ON s.coil_reg_params OE_COIL_ADDR := (MB_IS_COIL_ON_oe _).symm
  cases he : s.outputs_enabled with
  | true =>
    cases hc : MB_IS_COIL_ON s.coil_reg_params OE_COIL_ADDR with
    | false =>
      rw [handle_coil_write_disable s he hc]
      refine ⟨hb0, hb1, ?_, ?_, ?_⟩
      · rw [hmir, hc]
      · intro k _
        exact forced_off_dq s.phys hhigh k
      · intro _ k
        exact forced_off_dq s.phys hhigh k
    | true =>
      rw [handle_coil_write_remirror s he hc]
      refine ⟨hb0, hb1, ?_, ?_, ?_⟩
      · rw [hmir, hc, he]
      · exact update_phys_high s.coil_reg_params s.phys hhigh
      · intro hcontra
        rw [he] at hcontra
        exact absurd hcontra (by simp)
  | false =>
    cases hc : MB_IS_COIL_ON s.coil_reg_params OE_COIL_ADDR with
    | true =>
      rw [handle_coil_write_enable s he hc]
      refine ⟨hb0, hb1, ?_, ?_, ?_⟩
      · rw [hmir, hc]
      · intro k hk
        have := update_phys_high s.coil_reg_params s.phys hhigh k hk
        simpa [esp32_rio_turn_status_led_on] using this
      · intro hcontra
        exact absurd hcontra (by simp)
    | false =>
      rw [handle_coil_write_noop s he hc]
      refine ⟨hb0, hb1, ?_, hhigh, ?_⟩
      · rw [hmir, hc, he]
      · intro _
        exact hoff he

theorem Inv_applyEvent (s : SlaveState) (e : MbEvent) (h : Inv s) :
    Inv (applyEvent s e) := by
  cases e with
  | localToggle => exact Inv_on_oe_button_toggle s h
  | coilWrite b0 b1 =>
    show Inv (handle_coil_write_event
      { s with coil_reg_params := ⟨b0 % 2 ^ 16, b1 % 2 ^ 16⟩ })
    obtain ⟨_, _, _, hhigh, hoff⟩ := h
    exact Inv_handle_coil_write _ (mod_sixteen_lt _) (mod_sixteen_lt _) hhigh hoff

theorem Inv_runEvents (s : SlaveState) (h : Inv s) (es : List MbEvent) :
    Inv (runEvents s es) := by
  induction es generalizing s with
  | nil => exact h
  | cons e es ih => exact ih _ (Inv_applyEvent s e h)

theorem Inv_reachable (inputs : Nat) (es : List MbEvent) :
    Inv (runEvents (initState inputs) es) :=
  Inv_runEvents _ (Inv_initState inputs) es

theorem debounce_edges_aux (K n : Nat) :
    (List.replicate K ButtonEvent.edge).foldl debounceStep (⟨true⟩, n) =
      (⟨true⟩, n) := by
  induction K with
  | zero => rfl
  | succ K ih => rw [List.replicate_succ, List.foldl_cons]; exact ih

theorem debounce_edges (K : Nat) (hK : 1 ≤ K) :
    debounceRun ⟨false⟩ (List.replicate K ButtonEvent.edge) = (⟨true⟩, 0) := by
  cases K with
  | zero => omega
  | succ K =>
    rw [debounceRun, List.replicate_succ, List.foldl_cons]
    exact debounce_edges_aux K 0

theorem find_di_channel_none (g : Nat) (hg : g ∉ DI) :
    find_di_channel g = none := by
  rw [find_di_channel, List.find?_eq_none]
  intro i hi
  simp only [List.mem_range, ESP32_RIO_NUM_IO_CHANNELS] at hi
  simp only [beq_iff_eq]
  intro heq
  apply hg
  rw [← heq]
  interval_cases i <;> decide

/-- Claim C1: in every state reachable from startup by any sequence of
local toggles and remote coil writes, while the interlock is disabled every
physical output line of both banks is off, regardless of the coil values;
and a coil write processed while disabled with the mirror bit clear leaves
the physical lines untouched. -/
theorem interlock_safety (inputs : Nat) (es : List MbEvent) :
    ((runEvents (initState inputs) es).outputs_enabled = false →
      ∀ k, (runEvents (initState inputs) es).phys.dq0.testBit k = false ∧
        (runEvents (initState inputs) es).phys.dq1.testBit k = false) ∧
    (∀ b0 b1, (runEvents (initState inputs) es).outputs_enabled = false →
      (b1 % 2 ^ 16).testBit 15 = false →
      (applyEvent (runEvents (initState inputs) es)
          (MbEvent.coilWrite b0 b1)).phys =
        (runEvents (initState inputs) es).phys) := by
  obtain ⟨_, _, _, _, hoff⟩ := Inv_reachable inputs es
  refine ⟨hoff, ?_⟩
  intro b0 b1 he hm
  set s := runEvents (initState inputs) es with hs
  show (handle_coil_write_event
    { s with coil_reg_params := ⟨b0 % 2 ^ 16, b1 % 2 ^ 16⟩ }).phys = s.phys
  have hc : MB_IS_COIL_ON
      (⟨b0 % 2 ^ 16, b1 % 2 ^ 16⟩ : RegParams) OE_COIL_ADDR = false := by
    rw [MB_IS_COIL_ON_oe]
    exact hm
  have he' : ({ s with coil_reg_params :=
      (⟨b0 % 2 ^ 16, b1 % 2 ^ 16⟩ : RegParams) } : SlaveState).outputs_enabled = false := he
  rw [handle_coil_write_noop _ he' hc]

/-- Witness for C1 at a concrete reachable state: after a coil write of
value 7 into bank 0 while disabled, output line 3 is off, and a further
coil write with the mirror bit clear leaves the physical lines unchanged. -/
theorem interlock_safety_witness :
    (runEvents (initState 0) [MbEvent.coilWrite 7 0]).phys.dq0.testBit 3 = false ∧
    (applyEvent (runEvents (initState 0) [MbEvent.coilWrite 7 0])
        (MbEvent.coilWrite 3 0)).phys =
      (runEvents (initState 0) [MbEvent.coilWrite 7 0]).phys :=
  ⟨((interlock_safety 0 [MbEvent.coilWrite 7 0]).1 (by decide) 3).1,
    (interlock_safety 0 [MbEvent.coilWrite 7 0]).2 3 0 (by decide) (by decide)⟩

/-- Claim C2: a coil write processed while enabled whose written value
keeps the mirror bit (coil 31) set leaves the interlock enabled and makes
every physical output line equal its coil bit: bank-0 line `k` equals bit
`k` of the written bank 0, bank-1 line `k` equals bit `k` of the written
bank 1 (coil address `16 + k`). -/
theorem mirroring_while_enabled (s : SlaveState) (b0 b1 : Nat)
    (he : s.outputs_enabled = true)
    (hm : (b1 % 2 ^ 16).testBit 15 = true) :
    (applyEvent s (MbEvent.coilWrite b0 b1)).outputs_enabled = true ∧
    ∀ k, k < 10 →
      (applyEvent s (MbEvent.coilWrite b0 b1)).phys.dq0.testBit k =
        (b0 % 2 ^ 16).testBit k ∧
      (applyEvent s (MbEvent.coilWrite b0 b1)).phys.dq1.testBit k =
        (b1 % 2 ^ 16).testBit k := by
  have hc : MB_IS_COIL_ON
      (⟨b0 % 2 ^ 16, b1 % 2 ^ 16⟩ : RegParams) OE_COIL_ADDR = true := by
    rw [MB_IS_COIL_ON_oe]
    exact hm
  have he' : ({ s with coil_reg_params :=
      (⟨b0 % 2 ^ 16, b1 % 2 ^ 16⟩ : RegParams) } : SlaveState).outputs_enabled = true := he
  have hres := handle_coil_write_remirror _ he' hc
  simp only [applyEvent]
  rw [hres]
  refine ⟨he, ?_⟩
  intro k hk
  constructor
  · show (update_digital_outputs (⟨b0 % 2 ^ 16, b1 % 2 ^ 16⟩ : RegParams)
        s.phys).dq0.testBit k = (b0 % 2 ^ 16).testBit k
    rw [update_digital_outputs_dq0]
    simp only [hk, if_true]
    exact MB_IS_COIL_ON_low _ k (by omega)
  · show (update_digital_outputs (⟨b0 % 2 ^ 16, b1 % 2 ^ 16⟩ : RegParams)
        s.phys).dq1.testBit k = (b1 % 2 ^ 16).testBit k
    rw [update_digital_outputs_dq1]
    simp only [hk, if_true]
    exact MB_IS_COIL_ON_high _ (k + 16) (by omega) (by omega)

/-- Witness for C2: from an enabled state, writing bank 0 = 5 and bank 1 =
32769 (mirror bit set, channel-0 bit set) drives bank-0 line 2 on and
bank-1 line 0 on, and the interlock stays enabled. -/
theorem mirroring_while_enabled_witness :
    (applyEvent
        (⟨⟨0, 32768⟩, 0, true, ⟨0, 0, true⟩, 0⟩ : SlaveState)
        (MbEvent.coilWrite 5 32769)).outputs_enabled = true ∧
    (applyEvent (⟨⟨0, 32768⟩, 0, true, ⟨0, 0, true⟩, 0⟩ : SlaveState)
        (MbEvent.coilWrite 5 32769)).phys.dq0.testBit 2 =
      (5 % 2 ^ 16).testBit 2 ∧
    (applyEvent (⟨⟨0, 32768⟩, 0, true, ⟨0, 0, true⟩, 0⟩ : SlaveState)
        (MbEvent.coilWrite 5 32769)).phys.dq1.testBit 0 =
      (32769 % 2 ^ 16).testBit 0 := by
  have h := mirroring_while_enabled
    (⟨⟨0, 32768⟩, 0, true, ⟨0, 0, true⟩, 0⟩ : SlaveState) 5 32769
    (by decide) (by decide)
  exact ⟨h.1, (h.2 2 (by decide)).1, (h.2 0 (by decide)).2⟩

/-- Claim C3: after startup and after every completed local toggle or
remote coil-write handling step, the interlock mirror bit (bit 15 of coil
bank 1, coil address 31) equals the output-enable state. -/
theorem mirror_bit_state_sync (inputs : Nat) (es : List MbEvent) :
    (runEvents (initState inputs) es).coil_reg_params.coils_bank1.testBit 15 =
      (runEvents (initState inputs) es).outputs_enabled :=
  (Inv_reachable inputs es).2.2.1

/-- Claim C4 (Scenario A): from a disabled state with coil bank 0 = 0b101,
one local toggle enables the interlock, turns bank-0 outputs 0 and 2 on
and output 1 off, sets the mirror bit at coil address 31, and turns the
status indicator on. -/
theorem scenario_a_local_toggle (s : SlaveState)
    (he : s.outputs_enabled = false)
    (hb : s.coil_reg_params.coils_bank0 = 5) :
    (on_oe_button_toggle s).outputs_enabled = true ∧
    (on_oe_button_toggle s).phys.dq0.testBit 0 = true ∧
    (on_oe_button_toggle s).phys.dq0.testBit 1 = false ∧
    (on_oe_button_toggle s).phys.dq0.testBit 2 = true ∧
    (on_oe_button_toggle s).coil_reg_params.coils_bank1.testBit 15 = true ∧
    (on_oe_button_toggle s).phys.status_led = true := by
  rw [on_oe_button_toggle_of_disabled s he]
  have hdq : ∀ k, k < 10 →
      (esp32_rio_turn_status_led_on
        (update_digital_outputs s.coil_reg_params s.phys)).dq0.testBit k =
        s.coil_reg_params.coils_bank0.testBit k := by
    intro k hk
    show (update_digital_outputs s.coil_reg_params s.phys).dq0.testBit k = _
    rw [update_digital_outputs_dq0]
    simp only [hk, if_true]
    exact MB_IS_COIL_ON_low _ k (by omega)
  refine ⟨rfl, ?_, ?_, ?_, ?_, rfl⟩
  · rw [show ({ s with
        outputs_enabled := true
        coil_reg_params := MB_TURN_COIL_ON s.coil_reg_params OE_COIL_ADDR
        phys := esp32_rio_turn_status_led_on
          (update_digital_outputs s.coil_reg_params s.phys) } : SlaveState).phys =
      esp32_rio_turn_status_led_on
        (update_digital_outputs s.coil_reg_params s.phys) from rfl]
    rw [hdq 0 (by omega), hb]
    decide
  · rw [show ({ s with
        outputs_enabled := true
        coil_reg_params := MB_TURN_COIL_ON s.coil_reg_params OE_COIL_ADDR
        phys := esp32_rio_turn_status_led_on
          (update_digital_outputs s.coil_reg_params s.phys) } : SlaveState).phys =
      esp32_rio_turn_status_led_on
        (update_digital_outputs s.coil_reg_params s.phys) from rfl]
    rw [hdq 1 (by omega), hb]
    decide
  · rw [show ({ s with
        outputs_enabled := true
        coil_reg_params := MB_TURN_COIL_ON s.coil_reg_params OE_COIL_ADDR
        phys := esp32_rio_turn_status_led_on
          (update_digital_outputs s.coil_reg_params s.phys) } : SlaveState).phys =
      esp32_rio_turn_status_led_on
        (update_digital_outputs s.coil_reg_params s.phys) from rfl]
    rw [hdq 2 (by omega), hb]
    decide
  · show (MB_TURN_COIL_ON s.coil_reg_params OE_COIL_ADDR).coils_bank1.testBit 15 = true
    rw [MB_TURN_COIL_ON_oe]
    simp [testBit_mod_sixteen, testBit_setBit]

/-- Witness for C4: the scenario run from the concrete disabled state with
coil bank 0 = 5 and everything else at reset values. -/
theorem scenario_a_local_toggle_witness :
    (on_oe_button_toggle
      (⟨⟨5, 0⟩, 0, false, ⟨0, 0, false⟩, 0⟩ : SlaveState)).outputs_enabled = true ∧
    (on_oe_button_toggle
      (⟨⟨5, 0⟩, 0, false, ⟨0, 0, false⟩, 0⟩ : SlaveState)).phys.dq0.testBit 0 = true ∧
    (on_oe_button_toggle
      (⟨⟨5, 0⟩, 0, false, ⟨0, 0, false⟩, 0⟩ : SlaveState)).phys.dq0.testBit 1 = false :=
  have h := scenario_a_local_toggle
    (⟨⟨5, 0⟩, 0, false, ⟨0, 0, false⟩, 0⟩ : SlaveState) (by decide) (by decide)
  ⟨h.1, h.2.1, h.2.2.1⟩

/-- Claim C5: the coil address space is partitioned, with addresses below
16 decoding to bank 0 at the same index and addresses 16..31 decoding to
bank 1 at index `address - 16`; in particular address `16 + k` resolves to
bank-1 channel `k` for every `k < 10`, and the mirror coil at address 31 is
never driven onto a physical output: setting it does not change what
`update_digital_outputs` drives. -/
theorem coil_bit_addressing (r : RegParams) (p : PhysState) :
    (∀ a, a < 16 → MB_IS_COIL_ON r a = r.coils_bank0.testBit a) ∧
    (∀ a, 16 ≤ a → a < 32 → MB_IS_COIL_ON r a = r.coils_bank1.testBit (a - 16)) ∧
    (∀ k, k < 10 → MB_IS_COIL_ON r (16 + k) = r.coils_bank1.testBit k) ∧
    update_digital_outputs (MB_TURN_COIL_ON r OE_COIL_ADDR) p =
      update_digital_outputs r p := by
  refine ⟨fun a ha => MB_IS_COIL_ON_low r a ha,
    fun a h1 h2 => MB_IS_COIL_ON_high r a h1 h2, ?_, ?_⟩
  · intro k hk
    have h := MB_IS_COIL_ON_high r (16 + k) (by omega) (by omega)
    simpa using h
  · refine PhysState.ext ?_ ?_ ?_
    · refine Nat.eq_of_testBit_eq fun j => ?_
      rw [update_digital_outputs_dq0, update_digital_outputs_dq0]
      by_cases hj : j < 10
      · simp only [hj, if_true]
        rw [MB_IS_COIL_ON_low _ j (by omega), MB_IS_COIL_ON_low _ j (by omega),
          MB_TURN_COIL_ON_oe]
      · simp [hj]
    · refine Nat.eq_of_testBit_eq fun j => ?_
      rw [update_digital_outputs_dq1, update_digital_outputs_dq1]
      by_cases hj : j < 10
      · simp only [hj, if_true]
        rw [MB_IS_COIL_ON_high _ (j + 16) (by omega) (by omega),
          MB_IS_COIL_ON_high _ (j + 16) (by omega) (by omega),
          MB_TURN_COIL_ON_oe]
        have hj16 : j + 16 - 16 = j := by omega
        rw [hj16]
        show (setBit r.coils_bank1 15 % 2 ^ 16).testBit j = r.coils_bank1.testBit j
        have h1 : j < 16 := by omega
        have h2 : ¬ j = 15 := by omega
        simp [testBit_mod_sixteen, testBit_setBit, h1, h2]
      · simp [hj]
    · rw [update_digital_outputs_led, update_digital_outputs_led]

/-- Witness for C5 at concrete registers: address 16 + 3 decodes to bank-1
bit 3, and turning the mirror coil on does not change the driven lines. -/
theorem coil_bit_addressing_witness :
    MB_IS_COIL_ON (⟨5, 9⟩ : RegParams) (16 + 3) = Nat.testBit 9 3 ∧
    update_digital_outputs (MB_TURN_COIL_ON (⟨5, 9⟩ : RegParams) OE_COIL_ADDR)
        (⟨0, 0, false⟩ : PhysState) =
      update_digital_outputs (⟨5, 9⟩ : RegParams) (⟨0, 0, false⟩ : PhysState) :=
  ⟨(coil_bit_addressing (⟨5, 9⟩ : RegParams) (⟨0, 0, false⟩ : PhysState)).2.2.1
      3 (by decide),
    (coil_bit_addressing (⟨5, 9⟩ : RegParams) (⟨0, 0, false⟩ : PhysState)).2.2.2⟩

/-- Claim C6: any number `K ≥ 1` of qualifying button edges within one
debounce window (each edge sets the pending flag and restarts the
single-shot timer) produces exactly one toggle-callback invocation, and it
happens only at timer expiry — after the edges alone, before the timer
fires, no event has been emitted. -/
theorem debounce_exactly_one_toggle (K : Nat) (hK : 1 ≤ K) :
    (debounceRun ⟨false⟩
      (List.replicate K ButtonEvent.edge ++ [ButtonEvent.timerExpiry])).2 = 1 ∧
    (debounceRun ⟨false⟩ (List.replicate K ButtonEvent.edge)).2 = 0 := by
  have h := debounce_edges K hK
  rw [debounceRun] at h
  constructor
  · rw [debounceRun, List.foldl_append, h]
    rfl
  · rw [debounceRun, h]

/-- Witness for C6: three edges in one window yield exactly one emitted
toggle, and none before expiry. -/
theorem debounce_exactly_one_toggle_witness :
    (debounceRun ⟨false⟩
      (List.replicate 3 ButtonEvent.edge ++ [ButtonEvent.timerExpiry])).2 = 1 ∧
    (debounceRun ⟨false⟩ (List.replicate 3 ButtonEvent.edge)).2 = 0 :=
  debounce_exactly_one_toggle 3 (by decide)

/-- Claim C7: the disabling transition of the local toggle (taken whenever
the toggle runs with outputs enabled) is idempotent: applying it a second
time changes nothing, while each application does perform its forcing
actions — the mirror coil ends cleared, every physical output line ends
off and the indicator ends off. -/
theorem disable_forcing_idempotent (s : SlaveState)
    (he : s.outputs_enabled = true) :
    on_oe_button_toggle s = disable_transition s ∧
    disable_transition (disable_transition s) = disable_transition s ∧
    (disable_transition s).outputs_enabled = false ∧
    (disable_transition s).coil_reg_params.coils_bank1.testBit 15 = false ∧
    (∀ k, k < 10 → (disable_transition s).phys.dq0.testBit k = false ∧
      (disable_transition s).phys.dq1.testBit k = false) ∧
    (disable_transition s).phys.status_led = false := by
  refine ⟨on_oe_button_toggle_of_enabled s he, ?_, rfl, ?_, ?_, rfl⟩
  · refine SlaveState.ext ?_ rfl rfl ?_ rfl
    · show MB_TURN_COIL_OFF (MB_TURN_COIL_OFF s.coil_reg_params OE_COIL_ADDR)
          OE_COIL_ADDR = MB_TURN_COIL_OFF s.coil_reg_params OE_COIL_ADDR
      simp only [MB_TURN_COIL_OFF_oe]
      refine RegParams.ext rfl ?_
      refine Nat.eq_of_testBit_eq fun j => ?_
      show ((clearBit (clearBit s.coil_reg_params.coils_bank1 15 % 2 ^ 16) 15)
          % 2 ^ 16).testBit j = _
      by_cases hj : j < 16
      · by_cases hj15 : j = 15 <;>
          simp [testBit_mod_sixteen, testBit_clearBit, hj, hj15]
      · simp [testBit_mod_sixteen, hj]
    · show esp32_rio_turn_status_led_off (esp32_rio_disable_outputs
          (esp32_rio_turn_status_led_off (esp32_rio_disable_outputs s.phys))) =
        esp32_rio_turn_status_led_off (esp32_rio_disable_outputs s.phys)
      refine PhysState.ext ?_ ?_ rfl
      · refine Nat.eq_of_testBit_eq fun j => ?_
        show (esp32_rio_disable_outputs
            (esp32_rio_turn_status_led_off
              (esp32_rio_disable_outputs s.phys))).dq0.testBit j =
          (esp32_rio_disable_outputs s.phys).dq0.testBit j
        rw [disable_outputs_dq0, disable_outputs_dq0]
        by_cases hj : j < 10
        · simp [hj]
        · simp only [hj, if_false]
          show (esp32_rio_disable_outputs s.phys).dq0.testBit j =
            s.phys.dq0.testBit j
          rw [disable_outputs_dq0]
          simp [hj]
      · refine Nat.eq_of_testBit_eq fun j => ?_
        show (esp32_rio_disable_outputs
            (esp32_rio_turn_status_led_off
              (esp32_rio_disable_outputs s.phys))).dq1.testBit j =
          (esp32_rio_disable_outputs s.phys).dq1.testBit j
        rw [disable_outputs_dq1, disable_outputs_dq1]
        by_cases hj : j < 10
        · simp [hj]
        · simp only [hj, if_false]
          show (esp32_rio_disable_outputs s.phys).dq1.testBit j =
            s.phys.dq1.testBit j
          rw [disable_outputs_dq1]
          simp [hj]
  · show (MB_TURN_COIL_OFF s.coil_reg_params OE_COIL_ADDR).coils_bank1.testBit 15
        = false
    rw [MB_TURN_COIL_OFF_oe]
    simp [testBit_mod_sixteen, testBit_clearBit]
  · intro k hk
    constructor
    · show (esp32_rio_disable_outputs s.phys).dq0.testBit k = false
      rw [disable_outputs_dq0]
      simp [hk]
    · show (esp32_rio_disable_outputs s.phys).dq1.testBit k = false
      rw [disable_outputs_dq1]
      simp [hk]

/-- Witness for C7 at a concrete enabled state with some coils and lines
set. -/
theorem disable_forcing_idempotent_witness :
    disable_transition (disable_transition
        (⟨⟨5, 32769⟩, 0, true, ⟨5, 1, true⟩, 0⟩ : SlaveState)) =
      disable_transition (⟨⟨5, 32769⟩, 0, true, ⟨5, 1, true⟩, 0⟩ : SlaveState) ∧
    (disable_transition
        (⟨⟨5, 32769⟩, 0, true, ⟨5, 1, true⟩, 0⟩ : SlaveState)).phys.status_led =
      false :=
  have h := disable_forcing_idempotent
    (⟨⟨5, 32769⟩, 0, true, ⟨5, 1, true⟩, 0⟩ : SlaveState) (by decide)
  ⟨h.2.1, h.2.2.2.2.2⟩

/-- Claim C8: the level-change observer for channel `i < 10`, on a state
whose discrete-input register fits in 16 bits, sets bit `i` of the
discrete-input register to the sampled physical level of input `i`, leaves
every other discrete-input bit unchanged, and changes no coil bit, no
physical output and not the interlock state. -/
theorem input_mirror_frame (s : SlaveState) (i : Nat) (hi : i < 10)
    (hd : s.discrete_inputs < 2 ^ 16) :
    ((on_di_level_change s i).discrete_inputs.testBit i =
      esp32_rio_is_input_on s i) ∧
    (∀ j, j ≠ i → (on_di_level_change s i).discrete_inputs.testBit j =
      s.discrete_inputs.testBit j) ∧
    (on_di_level_change s i).coil_reg_params = s.coil_reg_params ∧
    (on_di_level_change s i).phys = s.phys ∧
    (on_di_level_change s i).outputs_enabled = s.outputs_enabled := by
  have hhi : ∀ j, 16 ≤ j → s.discrete_inputs.testBit j = false := by
    intro j hj
    refine Nat.testBit_eq_false_of_lt (lt_of_lt_of_le hd ?_)
    exact Nat.pow_le_pow_right (by omega) hj
  have hi16 : i < 16 := by omega
  cases h : esp32_rio_is_input_on s i with
  | true =>
    simp only [on_di_level_change, h, if_true]
    refine ⟨?_, ?_, by trivial, by trivial, by trivial⟩
    · simp [testBit_mod_sixteen, testBit_setBit, hi16]
    · intro j hj
      by_cases hj16 : j < 16
      · simp [testBit_mod_sixteen, testBit_setBit, hj16, hj]
      · simp [testBit_mod_sixteen, hj16, hhi j (by omega)]
  | false =>
    simp only [on_di_level_change, h, if_false]
    refine ⟨?_, ?_, by trivial, by trivial, by trivial⟩
    · simp [testBit_mod_sixteen, testBit_clearBit, hi16]
    · intro j hj
      by_cases hj16 : j < 16
      · simp [testBit_mod_sixteen, testBit_clearBit, hj16, hj]
      · simp [testBit_mod_sixteen, hj16, hhi j (by omega)]

/-- Witness for C8: channel 4 on a concrete state with input 4 high. -/
theorem input_mirror_frame_witness :
    ((on_di_level_change (⟨⟨0, 0⟩, 3, false, ⟨0, 0, false⟩, 16⟩ : SlaveState)
        4).discrete_inputs.testBit 4 =
      esp32_rio_is_input_on (⟨⟨0, 0⟩, 3, false, ⟨0, 0, false⟩, 16⟩ : SlaveState) 4) ∧
    (on_di_level_change (⟨⟨0, 0⟩, 3, false, ⟨0, 0, false⟩, 16⟩ : SlaveState)
        4).discrete_inputs.testBit 0 =
      (⟨⟨0, 0⟩, 3, false, ⟨0, 0, false⟩, 16⟩ : SlaveState).discrete_inputs.testBit 0 :=
  have h := input_mirror_frame (⟨⟨0, 0⟩, 3, false, ⟨0, 0, false⟩, 16⟩ : SlaveState)
    4 (by decide) (by decide)
  ⟨h.1, h.2.1 0 (by decide)⟩

/-- Claim C9: a dequeued identifier that matches no input pin leads the
consumer to scan the whole channel table without a match, invoke no
observer and leave the state unchanged. -/
theorem spurious_id_ignored (s : SlaveState) (g : Nat) (hg : g ∉ DI) :
    io_task_step s g = (s, none) := by
  rw [io_task_step, find_di_channel_none g hg]

/-- Witness for C9: GPIO number 0 is no input pin; the consumer ignores
it. -/
theorem spurious_id_ignored_witness :
    io_task_step (⟨⟨0, 0⟩, 0, false, ⟨0, 0, false⟩, 0⟩ : SlaveState) 0 =
      ((⟨⟨0, 0⟩, 0, false, ⟨0, 0, false⟩, 0⟩ : SlaveState), none) :=
  spurious_id_ignored (⟨⟨0, 0⟩, 0, false, ⟨0, 0, false⟩, 0⟩ : SlaveState) 0
    (by decide)

/-- Counterexample to C10 as stated: the macros convert their address to
`uint16_t` first, so an address of 65536 is truncated to 0 and addresses
coil 0 of bank 0: the test yields bank-0 bit 0 rather than `false`, and the
write operations modify bank 0. -/
theorem coil_addr_out_of_range_cex :
    32 ≤ 65536 ∧
    MB_IS_COIL_ON (⟨1, 0⟩ : RegParams) 65536 = true ∧
    MB_TURN_COIL_ON (⟨0, 0⟩ : RegParams) 65536 ≠ (⟨0, 0⟩ : RegParams) := by
  refine ⟨by omega, by decide, ?_⟩
  intro h
  have := congrArg RegParams.coils_bank0 h
  simp [MB_TURN_COIL_ON, setBit] at this

/-- Claim C10 (amended): for every address `a` with `32 ≤ a < 2 ^ 16` — the
values representable in the macros' `uint16_t` address variable — the test
operation returns `false` and the write operations leave both banks
unchanged. -/
theorem coil_addr_out_of_range_safe (r : RegParams) (a : Nat)
    (h1 : 32 ≤ a) (h2 : a < 2 ^ 16) :
    MB_IS_COIL_ON r a = false ∧
    MB_TURN_COIL_ON r a = r ∧
    MB_TURN_COIL_OFF r a = r := by
  have h2' : a < 65536 := lt_of_lt_of_le h2 (by norm_num)
  have hm : a % 65536 = a := Nat.mod_eq_of_lt h2'
  have hge : ¬ a < 16 := by omega
  have hnot : ¬ (16 ≤ a ∧ a < 32) := by omega
  refine ⟨?_, ?_, ?_⟩ <;>
    simp [MB_IS_COIL_ON, MB_TURN_COIL_ON, MB_TURN_COIL_OFF, hm, hge, hnot]

/-- Witness for the amended C10 at address 32. -/
theorem coil_addr_out_of_range_safe_witness :
    MB_IS_COIL_ON (⟨7, 11⟩ : RegParams) 32 = false ∧
    MB_TURN_COIL_ON (⟨7, 11⟩ : RegParams) 32 = (⟨7, 11⟩ : RegParams) ∧
    MB_TURN_COIL_OFF (⟨7, 11⟩ : RegParams) 32 = (⟨7, 11⟩ : RegParams) :=
  coil_addr_out_of_range_safe (⟨7, 11⟩ : RegParams) 32 (by decide) (by decide)

end Esp32Rio
